import Mathlib

/-!
Verification of the mino.rs falling-block engine.

Shallow embedding of the Rust sources:
* `src/grid/src/lib.rs` — the `Grid` type and its overlay / sweep primitives;
* `src/mino_core/src/common.rs` — `Rotation`, `Cell`, `FallingPiece`, `Playfield`,
  and the Play/Lock fragments the claims cite;
* `src/mino_core/src/tetro.rs` — the piece catalog, SRS offset tables,
  `WorldRuleLogic::rotate` and the T-Spin classification;
* `src/input_counter/src/lib.rs` — the `InputCounter` debouncer.

Rust `usize` indices become `Nat`; the `i32` coordinates become `Int`.  The
bitflags `OverlayResult` becomes a pair of `Bool`s.  `Vec<C>` cell storage
becomes `List C` addressed by `x + y * num_cols`, with `getD` supplying the
`Default::default()` value exactly where the Rust code's index assertions hold
anyway.  Loops become `List.foldl` over the same iteration ranges, in the same
order.
-/

set_option maxHeartbeats 1000000
set_option linter.unusedSectionVars false
set_option linter.unnecessarySeqFocus false

namespace Mino

/-- The `IsEmpty` trait of `grid/src/lib.rs` (line 172). -/
class CellLike (C : Type) where
  is_empty : C → Bool

export CellLike (is_empty)

/-- The `OverlayResult` bitflags of `grid/src/lib.rs` (lines 176-182):
one bit for OVERFLOW, one for OVERLAP. -/
structure OverlayResult where
  overflow : Bool
  overlap : Bool
deriving DecidableEq, Repr

namespace OverlayResult

/-- `OverlayResult::empty()`. -/
def empty : OverlayResult := ⟨false, false⟩

/-- `OverlayResult::is_empty()`: no flag is set. -/
def is_empty (r : OverlayResult) : Bool := !r.overflow && !r.overlap

end OverlayResult

/-- The `Grid<C>` struct of `grid/src/lib.rs` (lines 32-37). -/
structure Grid (C : Type) where
  num_rows : Nat
  num_cols : Nat
  cells : List C
deriving DecidableEq, Repr

namespace Grid

variable {C : Type} [Inhabited C]

/-- `Grid::new` (lines 43-51): `cells.resize(cols * rows, C::default())`. -/
def new (cols rows : Nat) (cells : List C) : Grid C :=
  { num_cols := cols, num_rows := rows,
    cells := cells.take (cols * rows) ++
      List.replicate (cols * rows - cells.length) default }

/-- `Grid::is_valid_cell_index` (lines 66-68). -/
def is_valid_cell_index (g : Grid C) (x y : Nat) : Bool :=
  decide (x < g.num_cols) && decide (y < g.num_rows)

/-- `Grid::cell_index` (lines 70-74): `x + y * num_cols` (the Rust code
asserts the bounds; every call site below satisfies them). -/
def cell_index (g : Grid C) (x y : Nat) : Nat := x + y * g.num_cols

/-- `Grid::cell` (lines 81-83). -/
def cell (g : Grid C) (x y : Nat) : C := g.cells.getD (g.cell_index x y) default

/-- `Grid::set_cell` (lines 76-79). -/
def set_cell (g : Grid C) (x y : Nat) (c : C) : Grid C :=
  { g with cells := g.cells.set (g.cell_index x y) c }

/-- `Grid::fill_row` (lines 85-89). -/
def fill_row (g : Grid C) (y : Nat) (c : C) : Grid C :=
  (List.range g.num_cols).foldl (fun gg x => gg.set_cell x y c) g

/-- `Grid::fill_rows` (lines 91-95) over the range `lo..hi`. -/
def fill_rows (g : Grid C) (lo hi : Nat) (c : C) : Grid C :=
  (List.range' lo (hi - lo)).foldl (fun gg y => gg.fill_row y c) g

/-- `Grid::reverse_rows` (lines 98-109): swap `(x, y)` with
`(x, num_rows - 1 - y)`. -/
def reverse_rows (g : Grid C) : Grid C :=
  (List.range (g.num_rows / 2)).foldl (fun gg y =>
    let yy := gg.num_rows - 1 - y
    (List.range gg.num_cols).foldl (fun g2 x =>
      let t := g2.cell x y
      let g3 := g2.set_cell x y (g2.cell x yy)
      g3.set_cell x yy t) gg) g

/-- `Grid::rotate1` (lines 111-119). -/
def rotate1 (g : Grid C) : Grid C :=
  (List.range g.num_rows).foldl (fun gg y =>
    (List.range g.num_cols).foldl (fun g2 x =>
      g2.set_cell y (g.num_cols - 1 - x) (g.cell x y)) gg)
    (Grid.new g.num_rows g.num_cols [])

/-- `Grid::rotate2` (lines 120-132). -/
def rotate2 (g : Grid C) : Grid C :=
  (List.range g.num_rows).foldl (fun gg y =>
    (List.range g.num_cols).foldl (fun g2 x =>
      g2.set_cell (g.num_cols - 1 - x) (g.num_rows - 1 - y) (g.cell x y)) gg)
    (Grid.new g.num_cols g.num_rows [])

/-- `Grid::rotate3` (lines 133-141). -/
def rotate3 (g : Grid C) : Grid C :=
  (List.range g.num_rows).foldl (fun gg y =>
    (List.range g.num_cols).foldl (fun g2 x =>
      g2.set_cell (g.num_rows - 1 - y) x (g.cell x y)) gg)
    (Grid.new g.num_rows g.num_cols [])

/-- `Grid::move_row` (lines 143-150). -/
def move_row (g : Grid C) (src_y dst_y : Nat) (placeholder : Option C) : Grid C :=
  (List.range g.num_cols).foldl (fun gg x =>
    let gg2 := gg.set_cell x dst_y (gg.cell x src_y)
    match placeholder with
    | some c => gg2.set_cell x src_y c
    | none => gg2) g

variable [CellLike C]

/-- `Grid::is_row_filled` (lines 188-195): the loop returns `false` at the
first empty cell, i.e. every cell of the row is non-empty. -/
def is_row_filled (g : Grid C) (y : Nat) : Bool :=
  (List.range g.num_cols).all (fun x => !(is_empty (g.cell x y)))

/-- The loop of `Grid::pluck_filled_rows` (lines 208-220), including the
early `break` when `y == self.num_rows - n`.  The list argument carries the
remaining values of the loop variable `y`. -/
def pluckLoop (g : Grid C) (n : Nat) : List Nat → Grid C × Nat
  | [] => (g, n)
  | y :: ys =>
    if g.is_row_filled y then g.pluckLoop (n + 1) ys
    else
      let g2 := if 0 < n then g.move_row y (y - n) none else g
      if y = g2.num_rows - n then (g2, n) else g2.pluckLoop n ys

/-- `Grid::pluck_filled_rows` (lines 207-225): the sweep loop followed by the
optional placeholder fill of rows `(num_rows - n)..num_rows`. -/
def pluck_filled_rows (g : Grid C) (placeholder : Option C) : Grid C × Nat :=
  let r := g.pluckLoop 0 (List.range g.num_rows)
  match placeholder with
  | some c => (r.1.fill_rows (r.1.num_rows - r.2) r.1.num_rows c, r.2)
  | none => r

/-- The iteration domain of `check_overlay` / `overlay`: all `(sub_x, sub_y)`
with `sub_y` the outer loop (lines 229-230 / 256-257). -/
def subPairs (sub : Grid C) : List (Nat × Nat) :=
  (List.range sub.num_rows).flatMap (fun sy =>
    (List.range sub.num_cols).map (fun sx => (sx, sy)))

/-- One iteration of the `check_overlay` loop body (lines 231-249); the
Rust locals `sub_cell`, `self_x = x + sub_x`, `self_y = y + sub_y` are
inlined. -/
def check_step (g : Grid C) (x y : Int) (sub : Grid C)
    (r : OverlayResult) (p : Nat × Nat) : OverlayResult :=
  if is_empty (sub.cell p.1 p.2) then r
  else if x + p.1 < 0 ∨ (g.num_cols : Int) ≤ x + p.1 ∨
      y + p.2 < 0 ∨ (g.num_rows : Int) ≤ y + p.2 then
    { r with overflow := true }
  else if !(is_empty (g.cell (x + p.1).toNat (y + p.2).toNat)) then
    { r with overlap := true }
  else r

/-- `Grid::check_overlay` (lines 227-252). -/
def check_overlay (g : Grid C) (x y : Int) (sub : Grid C) : OverlayResult :=
  (subPairs sub).foldl (g.check_step x y sub) OverlayResult.empty

/-- One iteration of the `overlay` loop body (lines 258-279): identical to
`check_step` except that a non-colliding source cell is written; the Rust
locals are inlined as in `check_step`. -/
def overlay_step (g0 : Grid C) (x y : Int) (sub : Grid C)
    (acc : Grid C × OverlayResult) (p : Nat × Nat) : Grid C × OverlayResult :=
  if is_empty (sub.cell p.1 p.2) then acc
  else if x + p.1 < 0 ∨ (g0.num_cols : Int) ≤ x + p.1 ∨
      y + p.2 < 0 ∨ (g0.num_rows : Int) ≤ y + p.2 then
    (acc.1, { acc.2 with overflow := true })
  else if !(is_empty (acc.1.cell (x + p.1).toNat (y + p.2).toNat)) then
    (acc.1, { acc.2 with overlap := true })
  else
    (acc.1.set_cell (x + p.1).toNat (y + p.2).toNat (sub.cell p.1 p.2), acc.2)

/-- `Grid::overlay` (lines 254-282); returns the mutated grid with the
flags.  The bound tests use the receiver's dimensions, which no iteration
changes, so they are read from the initial grid. -/
def overlay (g : Grid C) (x y : Int) (sub : Grid C) : Grid C × OverlayResult :=
  (subPairs sub).foldl (g.overlay_step x y sub) (g, OverlayResult.empty)

/-- Does `(sub_x, sub_y)` contribute OVERFLOW in `check_overlay`? -/
def ovfAt (g : Grid C) (x y : Int) (sub : Grid C) (p : Nat × Nat) : Bool :=
  !(is_empty (sub.cell p.1 p.2)) &&
    decide (x + p.1 < 0 ∨ (g.num_cols : Int) ≤ x + p.1 ∨
      y + p.2 < 0 ∨ (g.num_rows : Int) ≤ y + p.2)

/-- Does `(sub_x, sub_y)` contribute OVERLAP in `check_overlay`? -/
def ovlAt (g : Grid C) (x y : Int) (sub : Grid C) (p : Nat × Nat) : Bool :=
  !(is_empty (sub.cell p.1 p.2)) &&
    !(decide (x + p.1 < 0 ∨ (g.num_cols : Int) ≤ x + p.1 ∨
      y + p.2 < 0 ∨ (g.num_rows : Int) ≤ y + p.2)) &&
    !(is_empty (g.cell (x + p.1).toNat (y + p.2).toNat))

theorem check_foldl_eq (g : Grid C) (x y : Int) (sub : Grid C) :
    ∀ (l : List (Nat × Nat)) (r : OverlayResult),
      l.foldl (g.check_step x y sub) r =
        ⟨r.overflow || l.any (g.ovfAt x y sub), r.overlap || l.any (g.ovlAt x y sub)⟩ := by
  intro l
  induction l with
  | nil => intro r; simp
  | cons p t ih =>
    intro r
    simp only [List.foldl_cons, List.any_cons, ih]
    unfold check_step ovfAt ovlAt
    by_cases h1 : is_empty (sub.cell p.1 p.2)
    · simp [h1]
    · by_cases h2 : x + p.1 < 0 ∨ (g.num_cols : Int) ≤ x + p.1 ∨
          y + p.2 < 0 ∨ (g.num_rows : Int) ≤ y + p.2
      · simp [h1, h2, Bool.or_assoc]
      · by_cases h3 : is_empty (g.cell (x + p.1).toNat (y + p.2).toNat)
        · simp [h1, h2, h3]
        · simp [h1, h2, h3, Bool.or_assoc]

/-- `check_overlay` in terms of per-cell predicates. -/
theorem check_overlay_eq (g : Grid C) (x y : Int) (sub : Grid C) :
    g.check_overlay x y sub =
      ⟨(subPairs sub).any (g.ovfAt x y sub), (subPairs sub).any (g.ovlAt x y sub)⟩ := by
  unfold check_overlay
  rw [check_foldl_eq]
  rfl

theorem mem_subPairs (sub : Grid C) (p : Nat × Nat) :
    p ∈ subPairs sub ↔ p.1 < sub.num_cols ∧ p.2 < sub.num_rows := by
  cases p with
  | mk sx sy =>
    simp only [subPairs, List.mem_flatMap, List.mem_map, List.mem_range]
    constructor
    · rintro ⟨a, ha, b, hb, h⟩
      cases h
      exact ⟨hb, ha⟩
    · rintro ⟨h1, h2⟩
      exact ⟨sy, h2, sx, h1, rfl⟩

/-- If some non-empty cell of `sub` lands out of bounds, the overlay check
reports a flag. -/
theorem check_overlay_oob (g : Grid C) (x y : Int) (sub : Grid C)
    (sx sy : Nat) (h1 : sx < sub.num_cols) (h2 : sy < sub.num_rows)
    (hne : is_empty (sub.cell sx sy) = false)
    (hoob : x + sx < 0 ∨ (g.num_cols : Int) ≤ x + sx ∨
      y + sy < 0 ∨ (g.num_rows : Int) ≤ y + sy) :
    (g.check_overlay x y sub).is_empty = false := by
  rw [check_overlay_eq]
  have hmem : ((sx, sy) : Nat × Nat) ∈ subPairs sub := (mem_subPairs _ _).2 ⟨h1, h2⟩
  have hovf : g.ovfAt x y sub (sx, sy) = true := by
    unfold ovfAt
    simp only [hne, Bool.not_false, Bool.true_and, decide_eq_true_eq]
    exact hoob
  have hany : (subPairs sub).any (g.ovfAt x y sub) = true :=
    List.any_eq_true.2 ⟨_, hmem, hovf⟩
  simp [OverlayResult.is_empty, hany]

/-- Termination argument for the `check_overlay_toward` loop: stepping a
non-empty sub grid in a non-zero direction eventually leaves the grid, so
the exit condition (a non-empty check result) is eventually reached. -/
theorem exit_exists (g : Grid C) (x y : Int) (sub : Grid C) (dx dy : Int)
    (hd : dx ≠ 0 ∨ dy ≠ 0)
    (hne : ∃ sx sy, sx < sub.num_cols ∧ sy < sub.num_rows ∧
      is_empty (sub.cell sx sy) = false) :
    ∃ n : Nat, (g.check_overlay (x + n * dx) (y + n * dy) sub).is_empty = false := by
  obtain ⟨sx, sy, h1, h2, hcell⟩ := hne
  rcases hd with hdx | hdy
  · rcases lt_or_gt_of_ne hdx with hneg | hpos
    · refine ⟨(x + sx + 1).toNat, g.check_overlay_oob _ _ sub sx sy h1 h2 hcell (Or.inl ?_)⟩
      have ha : (x + sx + 1 : Int) ≤ ((x + sx + 1).toNat : Int) := Int.self_le_toNat _
      have hb : ((x + sx + 1).toNat : Int) * dx ≤ ((x + sx + 1).toNat : Int) * (-1) :=
        mul_le_mul_of_nonneg_left (by omega) (Int.natCast_nonneg _)
      linarith
    · refine ⟨((g.num_cols : Int) - x - sx).toNat,
        g.check_overlay_oob _ _ sub sx sy h1 h2 hcell (Or.inr (Or.inl ?_))⟩
      have ha : ((g.num_cols : Int) - x - sx) ≤ ((((g.num_cols : Int) - x - sx)).toNat : Int) :=
        Int.self_le_toNat _
      have hb : ((((g.num_cols : Int) - x - sx)).toNat : Int) * 1 ≤
          ((((g.num_cols : Int) - x - sx)).toNat : Int) * dx :=
        mul_le_mul_of_nonneg_left (by omega) (Int.natCast_nonneg _)
      linarith
  · rcases lt_or_gt_of_ne hdy with hneg | hpos
    · refine ⟨(y + sy + 1).toNat,
        g.check_overlay_oob _ _ sub sx sy h1 h2 hcell (Or.inr (Or.inr (Or.inl ?_)))⟩
      have ha : (y + sy + 1 : Int) ≤ ((y + sy + 1).toNat : Int) := Int.self_le_toNat _
      have hb : ((y + sy + 1).toNat : Int) * dy ≤ ((y + sy + 1).toNat : Int) * (-1) :=
        mul_le_mul_of_nonneg_left (by omega) (Int.natCast_nonneg _)
      linarith
    · refine ⟨((g.num_rows : Int) - y - sy).toNat,
        g.check_overlay_oob _ _ sub sx sy h1 h2 hcell (Or.inr (Or.inr (Or.inr ?_)))⟩
      have ha : ((g.num_rows : Int) - y - sy) ≤ ((((g.num_rows : Int) - y - sy)).toNat : Int) :=
        Int.self_le_toNat _
      have hb : ((((g.num_rows : Int) - y - sy)).toNat : Int) * 1 ≤
          ((((g.num_rows : Int) - y - sy)).toNat : Int) * dy :=
        mul_le_mul_of_nonneg_left (by omega) (Int.natCast_nonneg _)
      linarith

/-- A sub grid with only empty cells never triggers the exit condition. -/
theorem check_overlay_all_empty (g : Grid C) (x y : Int) (sub : Grid C)
    (hall : ∀ sx sy, sx < sub.num_cols → sy < sub.num_rows →
      is_empty (sub.cell sx sy) = true) :
    g.check_overlay x y sub = OverlayResult.empty := by
  rw [check_overlay_eq]
  have hovf : (subPairs sub).any (g.ovfAt x y sub) = false := by
    rw [List.any_eq_false]
    intro p hp
    obtain ⟨h1, h2⟩ := (mem_subPairs sub p).1 hp
    unfold ovfAt
    simp [hall p.1 p.2 h1 h2]
  have hovl : (subPairs sub).any (g.ovlAt x y sub) = false := by
    rw [List.any_eq_false]
    intro p hp
    obtain ⟨h1, h2⟩ := (mem_subPairs sub p).1 hp
    unfold ovlAt
    simp [hall p.1 p.2 h1 h2]
  rw [hovf, hovl]
  rfl

/-- `Grid::check_overlay_toward` (lines 285-308): the loop tests
`(x + n*dx, y + n*dy)` for n = 0, 1, ... and returns the first n with a
non-empty check result together with that result.  The loop only terminates
when such an n exists, which the hypothesis supplies; `Nat.find` returns
exactly the first such n. -/
def check_overlay_toward (g : Grid C) (x y : Int) (sub : Grid C) (dx dy : Int)
    (h : ∃ n : Nat, (g.check_overlay (x + n * dx) (y + n * dy) sub).is_empty = false) :
    Nat × OverlayResult :=
  (Nat.find h, g.check_overlay (x + (Nat.find h) * dx) (y + (Nat.find h) * dy) sub)

end Grid

/-- The test cell type of `grid/src/lib.rs` (lines 398-404): a number,
empty iff zero. -/
instance : CellLike Nat := ⟨fun c => c == 0⟩

/-- The 4x4 grid of the repo's `overlay_test` (lines 423-433). -/
def testGrid : Grid Nat :=
  (Grid.new 4 4 [0, 0, 0, 1, 0, 0, 0, 0, 0, 1, 0, 0, 0, 0, 0, 0]).reverse_rows

/-- The 2x2 sub grid of the repo's `overlay_test` (lines 434-442). -/
def testSub : Grid Nat := (Grid.new 2 2 [0, 1, 1, 0]).reverse_rows

/-- The embedding reproduces the `check_overlay` assertions of the repo's
own `overlay_test` (lines 444-455). -/
theorem check_overlay_matches_repo_test :
    testGrid.check_overlay 0 0 testSub = ⟨false, true⟩ ∧
    (testGrid.check_overlay 0 1 testSub).is_empty = true ∧
    testGrid.check_overlay 2 3 testSub = ⟨true, false⟩ ∧
    testGrid.check_overlay 3 3 testSub = ⟨true, true⟩ := by
  refine ⟨?_, ?_, ?_, ?_⟩ <;> decide

/-- The embedding reproduces the `overlay` assertions of the repo's own
`overlay_test` (lines 470-473). -/
theorem overlay_matches_repo_test :
    (testGrid.overlay 0 1 testSub).2.is_empty = true ∧
    (testGrid.overlay 0 1 testSub).1.cell 0 1 = 1 ∧
    (testGrid.overlay 0 1 testSub).1.cell 1 2 = 1 := by
  refine ⟨?_, ?_, ?_⟩ <;> decide

/-- The embedding reproduces the `check_overlay_toward` assertions of the
repo's own `overlay_test` (lines 457-468). -/
theorem check_overlay_toward_matches_repo_test :
    testGrid.check_overlay_toward 0 0 testSub 1 0 ⟨0, by decide⟩ = (0, ⟨false, true⟩) ∧
    testGrid.check_overlay_toward 1 0 testSub 1 0 ⟨2, by decide⟩ = (2, ⟨true, false⟩) ∧
    testGrid.check_overlay_toward 1 0 testSub (-1) 0 ⟨1, by decide⟩ = (1, ⟨false, true⟩) := by
  refine ⟨?_, ?_, ?_⟩
  · have hf : Nat.find (⟨0, by decide⟩ : ∃ n : Nat,
        (testGrid.check_overlay (0 + n * 1) (0 + n * 0) testSub).is_empty = false) = 0 :=
      (Nat.find_eq_iff _).2 ⟨by decide, by omega⟩
    unfold Grid.check_overlay_toward
    rw [hf]
    decide
  · have hf : Nat.find (⟨2, by decide⟩ : ∃ n : Nat,
        (testGrid.check_overlay (1 + n * 1) (0 + n * 0) testSub).is_empty = false) = 2 :=
      (Nat.find_eq_iff _).2 ⟨by decide, by
        intro k hk
        interval_cases k <;> decide⟩
    unfold Grid.check_overlay_toward
    rw [hf]
    decide
  · have hf : Nat.find (⟨1, by decide⟩ : ∃ n : Nat,
        (testGrid.check_overlay (1 + n * (-1)) (0 + n * 0) testSub).is_empty = false) = 1 :=
      (Nat.find_eq_iff _).2 ⟨by decide, by
        intro k hk
        interval_cases k <;> decide⟩
    unfold Grid.check_overlay_toward
    rw [hf]
    decide

/-! ## mino_core/src/common.rs: rotation states, cells, pieces -/

/-- The `Rotation` enum of `common.rs` (lines 6-12). -/
inductive Rotation where
  | Cw0
  | Cw90
  | Cw180
  | Cw270
deriving DecidableEq, Repr

namespace Rotation

/-- `Rotation as i16` (the discriminant). -/
def idx : Rotation → Nat
  | .Cw0 => 0
  | .Cw90 => 1
  | .Cw180 => 2
  | .Cw270 => 3

/-- `Rotation::rotate_cw` (lines 15-23).  Rust `%` on `i16` is the
truncated remainder, `Int.tmod`; the `match` arms cover 0..3 and the
remaining arm is `panic!("never matched")`, modelled as `none`. -/
def rotate_cw (r : Rotation) (n : Int) : Option Rotation :=
  match Int.tmod ((r.idx : Int) + n) 4 with
  | 0 => some .Cw0
  | 1 => some .Cw90
  | 2 => some .Cw180
  | 3 => some .Cw270
  | _ => none

/-- `Rotation::cw` (lines 24-26). -/
def cw (r : Rotation) : Option Rotation := r.rotate_cw 1

/-- `Rotation::ccw` (lines 27-29). -/
def ccw (r : Rotation) : Option Rotation := r.rotate_cw (-1)

end Rotation

/-- The `Piece` enum of `tetro.rs` (lines 6-15). -/
inductive Piece where
  | I
  | T
  | O
  | S
  | Z
  | J
  | L
deriving DecidableEq, Repr

/-- The `Cell` enum of `common.rs` (lines 54-59). -/
inductive Cell (P : Type) where
  | Empty
  | Block (p : P)
  | Garbage
deriving DecidableEq, Repr

instance {P : Type} : Inhabited (Cell P) := ⟨Cell.Empty⟩

/-- The `IsEmpty` impl for `Cell` (`common.rs` lines 61-68): only
`Cell::Empty` is empty. -/
instance {P : Type} : CellLike (Cell P) :=
  ⟨fun c => match c with
    | Cell.Empty => true
    | _ => false⟩

/-- The `TSpin` tag consumed by `tetro.rs` (variants `TSpin::None`,
`TSpin::Mini`, `TSpin::Normal` as used at its lines 310-321; the enum
declaration itself lives in a `common` iteration outside `src/`). -/
inductive TSpin where
  | None
  | Mini
  | Normal
deriving DecidableEq, Repr

/-! ### The piece catalog of `tetro.rs` (`gen_piece_definitions`, lines 47-204) -/

/-- Shorthand for `Cell::Empty` at the `Piece` instantiation. -/
def ce : Cell Piece := Cell.Empty

/-- The I mask of `gen_piece_definitions` (lines 60-71), 5x5, written
top-to-bottom and then `reverse_rows`ed exactly as in the source. -/
def grid_i : Grid (Cell Piece) :=
  (Grid.new 5 5
    [ce, ce, ce, ce, ce,
     ce, ce, ce, ce, ce,
     ce, Cell.Block Piece.I, Cell.Block Piece.I, Cell.Block Piece.I, Cell.Block Piece.I,
     ce, ce, ce, ce, ce,
     ce, ce, ce, ce, ce]).reverse_rows

/-- The T mask (lines 73-82). -/
def grid_t : Grid (Cell Piece) :=
  (Grid.new 3 3
    [ce, Cell.Block Piece.T, ce,
     Cell.Block Piece.T, Cell.Block Piece.T, Cell.Block Piece.T,
     ce, ce, ce]).reverse_rows

/-- The O mask (lines 84-93). -/
def grid_o : Grid (Cell Piece) :=
  (Grid.new 3 3
    [ce, Cell.Block Piece.O, Cell.Block Piece.O,
     ce, Cell.Block Piece.O, Cell.Block Piece.O,
     ce, ce, ce]).reverse_rows

/-- The S mask (lines 95-104). -/
def grid_s : Grid (Cell Piece) :=
  (Grid.new 3 3
    [ce, Cell.Block Piece.S, Cell.Block Piece.S,
     Cell.Block Piece.S, Cell.Block Piece.S, ce,
     ce, ce, ce]).reverse_rows

/-- The Z mask (lines 106-115). -/
def grid_z : Grid (Cell Piece) :=
  (Grid.new 3 3
    [Cell.Block Piece.Z, Cell.Block Piece.Z, ce,
     ce, Cell.Block Piece.Z, Cell.Block Piece.Z,
     ce, ce, ce]).reverse_rows

/-- The J mask (lines 117-126). -/
def grid_j : Grid (Cell Piece) :=
  (Grid.new 3 3
    [Cell.Block Piece.J, ce, ce,
     Cell.Block Piece.J, Cell.Block Piece.J, Cell.Block Piece.J,
     ce, ce, ce]).reverse_rows

/-- The L mask (lines 128-137). -/
def grid_l : Grid (Cell Piece) :=
  (Grid.new 3 3
    [ce, ce, Cell.Block Piece.L,
     Cell.Block Piece.L, Cell.Block Piece.L, Cell.Block Piece.L,
     ce, ce, ce]).reverse_rows

/-- `Piece::grid` (`tetro.rs` lines 224-228): index the per-piece list
`[base, base.rotate1(), base.rotate2(), base.rotate3()]` (lines 139-203)
by the rotation discriminant. -/
def Piece.grid (p : Piece) (r : Rotation) : Grid (Cell Piece) :=
  match p, r with
  | .I, .Cw0 => grid_i
  | .I, .Cw90 => grid_i.rotate1
  | .I, .Cw180 => grid_i.rotate2
  | .I, .Cw270 => grid_i.rotate3
  | .T, .Cw0 => grid_t
  | .T, .Cw90 => grid_t.rotate1
  | .T, .Cw180 => grid_t.rotate2
  | .T, .Cw270 => grid_t.rotate3
  | .O, .Cw0 => grid_o
  | .O, .Cw90 => grid_o.rotate1
  | .O, .Cw180 => grid_o.rotate2
  | .O, .Cw270 => grid_o.rotate3
  | .S, .Cw0 => grid_s
  | .S, .Cw90 => grid_s.rotate1
  | .S, .Cw180 => grid_s.rotate2
  | .S, .Cw270 => grid_s.rotate3
  | .Z, .Cw0 => grid_z
  | .Z, .Cw90 => grid_z.rotate1
  | .Z, .Cw180 => grid_z.rotate2
  | .Z, .Cw270 => grid_z.rotate3
  | .J, .Cw0 => grid_j
  | .J, .Cw90 => grid_j.rotate1
  | .J, .Cw180 => grid_j.rotate2
  | .J, .Cw270 => grid_j.rotate3
  | .L, .Cw0 => grid_l
  | .L, .Cw90 => grid_l.rotate1
  | .L, .Cw180 => grid_l.rotate2
  | .L, .Cw270 => grid_l.rotate3

/-- The `Playfield` struct of `common.rs` (lines 130-134). -/
structure Playfield where
  visible_rows : Nat
  grid : Grid (Cell Piece)
deriving DecidableEq, Repr

/-- The `FallingPiece` struct of `common.rs` (lines 86-92), instantiated
at the tetromino `Piece` of `tetro.rs`. -/
structure FallingPiece where
  piece : Piece
  x : Int
  y : Int
  rotation : Rotation
deriving DecidableEq, Repr

namespace FallingPiece

/-- `FallingPiece::grid` (`common.rs` lines 95-97). -/
def grid (fp : FallingPiece) : Grid (Cell Piece) := fp.piece.grid fp.rotation

/-- `FallingPiece::can_put_onto` (`common.rs` lines 112-117). -/
def can_put_onto (fp : FallingPiece) (pf : Playfield) : Bool :=
  (pf.grid.check_overlay fp.x fp.y fp.grid).is_empty

/-- `FallingPiece::put_onto` (`common.rs` lines 118-120); the Rust method
mutates the playfield and returns the flags, modelled as a pair. -/
def put_onto (fp : FallingPiece) (pf : Playfield) : OverlayResult × Playfield :=
  let r := pf.grid.overlay fp.x fp.y fp.grid
  (r.2, { pf with grid := r.1 })

end FallingPiece

/-- Decidable scan: does the grid contain a non-empty cell? -/
def Grid.hasNonEmptyCell {C : Type} [Inhabited C] [CellLike C] (g : Grid C) : Bool :=
  (List.range g.num_rows).any (fun y =>
    (List.range g.num_cols).any (fun x => !(is_empty (g.cell x y))))

theorem Grid.hasNonEmptyCell_exists {C : Type} [Inhabited C] [CellLike C]
    (g : Grid C) (h : g.hasNonEmptyCell = true) :
    ∃ sx sy, sx < g.num_cols ∧ sy < g.num_rows ∧ is_empty (g.cell sx sy) = false := by
  unfold hasNonEmptyCell at h
  rw [List.any_eq_true] at h
  obtain ⟨y, hy, hrow⟩ := h
  rw [List.any_eq_true] at hrow
  obtain ⟨x, hx, hcell⟩ := hrow
  exact ⟨x, y, List.mem_range.1 hx, List.mem_range.1 hy,
    by simpa using hcell⟩

/-- Every rotation mask of every piece contains at least one block cell. -/
theorem piece_grid_hasNonEmptyCell (p : Piece) (r : Rotation) :
    (p.grid r).hasNonEmptyCell = true := by
  cases p <;> cases r <;> decide

/-- The gravity loop `check_overlay_toward(x, y, grid, 0, -1)` always
terminates for a real piece: stepping downward eventually overflows. -/
theorem droppable_exit (fp : FallingPiece) (pf : Playfield) :
    ∃ n : Nat, (pf.grid.check_overlay (fp.x + n * 0) (fp.y + n * (-1)) fp.grid).is_empty
      = false :=
  Grid.exit_exists pf.grid fp.x fp.y fp.grid 0 (-1) (Or.inr (by decide))
    ((fp.piece.grid fp.rotation).hasNonEmptyCell_exists (piece_grid_hasNonEmptyCell _ _))

/-- `FallingPiece::droppable_rows` (`common.rs` lines 121-127): the first
component of `check_overlay_toward(x, y, grid, 0, -1)`, returned as is
(no subtraction). -/
def FallingPiece.droppable_rows (fp : FallingPiece) (pf : Playfield) : Nat :=
  (pf.grid.check_overlay_toward fp.x fp.y fp.grid 0 (-1) (droppable_exit fp pf)).1

/-! ### Play-state fragments of `common.rs` the claims cite -/

/-- The HARD_DROP branch of `GameStatePlay::update` (`common.rs` lines
449-454): `fp.y -= num_droppable_rows` and transition to Lock. -/
def hardDrop (fp : FallingPiece) (pf : Playfield) : FallingPiece :=
  { fp with y := fp.y - (fp.droppable_rows pf : Int) }

/-- The horizontal-move step of `GameStatePlay::update` (`common.rs` lines
504-518): `dx` is -1 when MOVE_LEFT is handled, else 1 when MOVE_RIGHT is
handled, else 0; if `dx != 0`, try `t.x -= dx` and keep it when
`can_put_onto` passes. -/
def horizontalMove (moveLeftHandled moveRightHandled : Bool)
    (fp : FallingPiece) (pf : Playfield) : FallingPiece :=
  let dx : Int := if moveLeftHandled then -1 else if moveRightHandled then 1 else 0
  if dx ≠ 0 then
    let t := { fp with x := fp.x - dx }
    if t.can_put_onto pf then t else fp
  else fp

/-- The overlay performed by `GameStateLock::lock` (`common.rs` lines
558-559): `let r = fp.put_onto(&mut data.playfield); assert!(r.is_empty())`.
The `Bool` is the asserted condition. -/
def lockOverlayOk (fp : FallingPiece) (pf : Playfield) : Bool :=
  (fp.put_onto pf).1.is_empty

/-! ### tetro.rs: SRS offset tables, rotation, T-Spin classification -/

/-- `OFFSET_DATA_I` (`tetro.rs` lines 208-213), indexed by rotation. -/
def offset_data_i : Rotation → List (Int × Int)
  | .Cw0 => [(0, 0), (-1, 0), (2, 0), (-1, 0), (2, 0)]
  | .Cw90 => [(-1, 0), (0, 0), (0, 0), (0, 1), (0, -2)]
  | .Cw180 => [(-1, 1), (1, 1), (-2, 1), (1, 0), (-2, 0)]
  | .Cw270 => [(0, 1), (0, 1), (0, 1), (0, -1), (0, 2)]

/-- `OFFSET_DATA_O` (`tetro.rs` lines 214-215). -/
def offset_data_o : Rotation → List (Int × Int)
  | .Cw0 => [(0, 0)]
  | .Cw90 => [(0, -1)]
  | .Cw180 => [(-1, -1)]
  | .Cw270 => [(-1, 0)]

/-- `OFFSET_DATA_JLSTZ` (`tetro.rs` lines 216-221). -/
def offset_data_jlstz : Rotation → List (Int × Int)
  | .Cw0 => [(0, 0), (0, 0), (0, 0), (0, 0), (0, 0)]
  | .Cw90 => [(0, 0), (1, 0), (1, -1), (0, 2), (1, 2)]
  | .Cw180 => [(0, 0), (0, 0), (0, 0), (0, 0), (0, 0)]
  | .Cw270 => [(0, 0), (-1, 0), (-1, -1), (0, 2), (-1, 2)]

/-- The table selection in `WorldRuleLogic::rotate` (`tetro.rs` lines
265-269). -/
def offsetData (p : Piece) : Rotation → List (Int × Int) :=
  match p with
  | .I => offset_data_i
  | .O => offset_data_o
  | _ => offset_data_jlstz

/-- The corner / behind-cell occupancy test of the T-Spin check
(`tetro.rs` lines 286-291 and 304-308): out of bounds or non-empty. -/
def corner_filled (pf : Playfield) (x y : Int) : Bool :=
  (decide (x < 0) || decide (y < 0)) ||
    !(pf.grid.is_valid_cell_index x.toNat y.toNat) ||
    !(is_empty (pf.grid.cell x.toNat y.toNat))

/-- The T-Spin classification inside `WorldRuleLogic::rotate` (`tetro.rs`
lines 278-319), evaluated on the accepted candidate `fp`: count the filled
diagonal corners of the 3x3 box (dy outer over [-1, 1], dx inner), then
consult the cell behind the new rotation's pointing direction. -/
def tspin_check (fp : FallingPiece) (pf : Playfield) : TSpin :=
  let center : Int × Int := (fp.x + 1, fp.y + 1)
  let n := ([(-1 : Int), 1]).foldl (fun n dy =>
    ([(-1 : Int), 1]).foldl (fun n dx =>
      if corner_filled pf (center.1 + dx) (center.2 + dy) then n + 1 else n) n) 0
  if 3 ≤ n then
    let d : Int × Int :=
      match fp.rotation with
      | .Cw0 => (0, -1)
      | .Cw90 => (-1, 0)
      | .Cw180 => (0, 1)
      | .Cw270 => (1, 0)
    if corner_filled pf (center.1 + d.1) (center.2 + d.2) then
      if n = 4 then TSpin.Normal else TSpin.Mini
    else TSpin.Normal
  else TSpin.None

/-- The tag attached to an accepted rotation (`tetro.rs` lines 277 and
320-322): the T-Spin check for piece T, `TSpin::None` otherwise. -/
def accepted_tspin (fp : FallingPiece) (pf : Playfield) : TSpin :=
  if fp.piece = Piece.T then tspin_check fp pf else TSpin.None

/-- One kick candidate of `WorldRuleLogic::rotate` (`tetro.rs` lines
273-275): `fp` already carries the new rotation and the pair holds
`(offsets1[i], offsets2[i])`. -/
def mkCand (fp : FallingPiece) (o : (Int × Int) × (Int × Int)) : FallingPiece :=
  { fp with x := fp.x + o.1.1 - o.2.1, y := fp.y + o.1.2 - o.2.2 }

/-- The kick loop of `WorldRuleLogic::rotate` (`tetro.rs` lines 272-325):
return the first candidate that passes `can_put_onto`, paired with its
T-Spin tag; `none` when every candidate fails. -/
def rotateLoop (pf : Playfield) (fp : FallingPiece) :
    List ((Int × Int) × (Int × Int)) → Option (FallingPiece × TSpin)
  | [] => none
  | o :: rest =>
    let cand := mkCand fp o
    if cand.can_put_onto pf then some (cand, accepted_tspin cand pf)
    else rotateLoop pf fp rest

/-- `WorldRuleLogic::rotate` (`tetro.rs` lines 253-327).  The outer
`Option` models the panic inside `Rotation::cw`/`ccw` (reached when the
truncated remainder is negative); a `some` is the Rust return value. -/
def WorldRuleLogic.rotate (cw : Bool) (falling_piece : FallingPiece) (pf : Playfield) :
    Option (Option (FallingPiece × TSpin)) :=
  match (if cw then falling_piece.rotation.cw else falling_piece.rotation.ccw) with
  | none => none
  | some newRot =>
    let offsets1 := offsetData falling_piece.piece falling_piece.rotation
    let offsets2 := offsetData falling_piece.piece newRot
    some (rotateLoop pf { falling_piece with rotation := newRot } (offsets1.zip offsets2))

/-! ## input_counter/src/lib.rs: the DAS/ARR debouncer -/

/-- The `InputState` enum (`input_counter` lines 7-13). -/
inductive InputState where
  | Inactive
  | Delay
  | Repeat
  | End
deriving DecidableEq, Repr

/-- The `InputCounter` struct (`input_counter` lines 15-23), with the
generic numeric counter taken at `Nat` (the engine instantiates it at the
frame counter type; no value in the claims' scenario approaches a wrap). -/
structure InputCounter where
  opt_repeat : Nat
  opt_first_delay : Nat
  state : InputState
  can_handle : Bool
  is_handled : Bool
  n : Nat
deriving DecidableEq, Repr

namespace InputCounter

/-- `InputCounter::new` (lines 26-39): a zero `first_delay` is replaced by
`repeat`. -/
def new (repeat_ first_delay : Nat) : InputCounter :=
  { opt_repeat := repeat_,
    opt_first_delay := if first_delay = 0 then repeat_ else first_delay,
    state := .Inactive,
    can_handle := false,
    is_handled := false,
    n := 0 }

/-- `InputCounter::update` (lines 40-77). -/
def update (c : InputCounter) (active : Bool) : InputCounter :=
  if !active then
    { c with state := .Inactive, can_handle := false, is_handled := false, n := 0 }
  else if c.can_handle && !c.is_handled then c
  else
    let c := { c with is_handled := false }
    match c.state with
    | .Inactive =>
      { c with
          can_handle := true
          state := if c.opt_repeat = 0 then .End else .Delay }
    | .Delay =>
      let n := c.n + 1
      if n = c.opt_first_delay then
        { c with n := 0, can_handle := true, state := .Repeat }
      else
        { c with n := n, can_handle := false }
    | .Repeat =>
      let n := (c.n + 1) % c.opt_repeat
      { c with n := n, can_handle := n = 0 }
    | .End => c

/-- `InputCounter::handle` (lines 81-88): consume a pending trigger. -/
def handle (c : InputCounter) : Bool × InputCounter :=
  if c.can_handle then (true, { c with can_handle := false, is_handled := true })
  else (false, c)

end InputCounter

/-! ## Concrete fixtures -/

/-- An empty 4x4 playfield, fully visible. -/
def pfE4 : Playfield := ⟨4, Grid.new 4 4 []⟩

/-- An empty 5x4 playfield, fully visible. -/
def pfE5 : Playfield := ⟨4, Grid.new 5 4 []⟩

/-- A T piece resting on the floor of `pfE4`: its solid cells occupy rows
0 and 1, so the position one row lower overflows. -/
def fpT_rest : FallingPiece := ⟨.T, 0, -1, .Cw0⟩

/-- An O piece resting on the floor of `pfE4`. -/
def fpO_rest : FallingPiece := ⟨.O, 0, -1, .Cw0⟩

/-- A T piece in the middle of `pfE5`, free to move one column left or
right. -/
def fpT_mid : FallingPiece := ⟨.T, 1, 0, .Cw0⟩

/-- Number of non-empty cells of a grid. -/
def nonEmptyCount {C : Type} [Inhabited C] [CellLike C] (g : Grid C) : Nat :=
  g.cells.countP (fun c => !(is_empty c))

/-- The 2x4 grid (bottom row first) `[G,G] / [G,G] / [E,G] / [G,E]`: rows 0
and 1 are filled, rows 2 and 3 are partially filled. -/
def g8 : Grid (Cell Piece) :=
  Grid.new 2 4
    [Cell.Garbage, Cell.Garbage,
     Cell.Garbage, Cell.Garbage,
     Cell.Empty, Cell.Garbage,
     Cell.Garbage, Cell.Empty]

/-! ## Claims -/

/-- C2: the claim states `droppable_rows = check_overlay_toward(x, y, grid,
0, -1).n - 1`, with value 0 for a piece resting on support.  The code
(`common.rs` lines 121-127) returns that `n` unchanged: for the O piece
resting on the floor the first colliding step is `n = 1`, and
`droppable_rows` evaluates to 1, not 0. -/
theorem c2_droppable_rows_returns_n_unchanged :
    fpO_rest.can_put_onto pfE4 = true ∧
    fpO_rest.droppable_rows pfE4 = 1 ∧
    ¬ fpO_rest.droppable_rows pfE4 = 1 - 1 := by
  have hd : fpO_rest.droppable_rows pfE4 = 1 := by
    show Nat.find (droppable_exit fpO_rest pfE4) = 1
    refine (Nat.find_eq_iff _).2 ⟨by decide, ?_⟩
    intro k hk
    interval_cases k
    decide
  exact ⟨by decide, hd, by omega⟩

/-- C1: the claim states every Play-state operation preserves
`can_put_onto`, so the Lock overlay always succeeds.  The HARD_DROP branch
(`common.rs` lines 452-454) translates the piece down by `droppable_rows`,
which is one more than the free space (see C2): a T piece resting on the
floor satisfies the invariant before the drop, violates it after, and the
overlay asserted at `GameStateLock::lock` (line 559) is then non-empty. -/
theorem c1_hard_drop_breaks_nonoverlap_invariant :
    fpT_rest.can_put_onto pfE4 = true ∧
    (hardDrop fpT_rest pfE4).can_put_onto pfE4 = false ∧
    lockOverlayOk (hardDrop fpT_rest pfE4) pfE4 = false := by
  have hd : fpT_rest.droppable_rows pfE4 = 1 := by
    show Nat.find (droppable_exit fpT_rest pfE4) = 1
    refine (Nat.find_eq_iff _).2 ⟨by decide, ?_⟩
    intro k hk
    interval_cases k
    decide
  have h2 : hardDrop fpT_rest pfE4 = ⟨.T, 0, -2, .Cw0⟩ := by
    unfold hardDrop
    rw [hd]
    decide
  rw [h2]
  exact ⟨by decide, by decide, by decide⟩

/-- C3: the claim states a counter-clockwise rotation request never
reaches the panic branch of `Rotation::rotate_cw`.  From `Cw0` (the spawn
rotation), `ccw()` computes `(0 + (-1)) % 4 = -1` under Rust's truncated
remainder, which matches no arm (`common.rs` line 21), so
`WorldRuleLogic::rotate(false, ..)` panics; the embedding returns the
`none` that models the panic. -/
theorem c3_ccw_from_cw0_reaches_panic_branch :
    Rotation.Cw0.ccw = none ∧
    WorldRuleLogic.rotate false fpT_mid pfE5 = none ∧
    Rotation.Cw0.cw = some .Cw90 ∧
    Rotation.Cw90.ccw = some .Cw0 := by
  exact ⟨by decide, by decide, by decide, by decide⟩

/-- C4: the claim states a handled MOVE_LEFT decreases `x` by 1 when the
shifted position is free.  The code (`common.rs` lines 505-517) sets
`dx = -1` for MOVE_LEFT but then applies `t.x -= dx`, so the piece moves to
`x + 1` even though `x - 1` is free. -/
theorem c4_move_left_increases_x :
    (horizontalMove true false fpT_mid pfE5).x = fpT_mid.x + 1 ∧
    FallingPiece.can_put_onto { fpT_mid with x := fpT_mid.x - 1 } pfE5 = true ∧
    ¬ (horizontalMove true false fpT_mid pfE5).x = fpT_mid.x - 1 := by
  exact ⟨by decide, by decide, by decide⟩

/-! ### Overlay round-trip (C9) -/

theorem listGetD_set {α : Type} [Inhabited α] (l : List α) (i j : Nat) (a : α) :
    (l.set i a).getD j default =
      if i = j ∧ i < l.length then a else l.getD j default := by
  rw [List.getD_eq_getElem?_getD, List.getD_eq_getElem?_getD, List.getElem?_set]
  by_cases h1 : i = j
  · subst h1
    by_cases h2 : i < l.length
    · simp [h2]
    · simp [h2, List.getElem?_eq_none (by omega : l.length ≤ i)]
  · simp [h1]

namespace Grid

variable {C : Type} [Inhabited C] [CellLike C]

/-- The `overlay` fold never changes the grid dimensions or the cell-list
length. -/
theorem overlay_foldl_preserve (g0 : Grid C) (x y : Int) (sub : Grid C) :
    ∀ (l : List (Nat × Nat)) (acc : Grid C × OverlayResult),
      (l.foldl (g0.overlay_step x y sub) acc).1.num_rows = acc.1.num_rows ∧
      (l.foldl (g0.overlay_step x y sub) acc).1.num_cols = acc.1.num_cols ∧
      (l.foldl (g0.overlay_step x y sub) acc).1.cells.length = acc.1.cells.length := by
  intro l
  induction l with
  | nil => intro acc; exact ⟨rfl, rfl, rfl⟩
  | cons p t ih =>
    intro acc
    rw [List.foldl_cons]
    obtain ⟨h1, h2, h3⟩ := ih (g0.overlay_step x y sub acc p)
    have hstep : (g0.overlay_step x y sub acc p).1.num_rows = acc.1.num_rows ∧
        (g0.overlay_step x y sub acc p).1.num_cols = acc.1.num_cols ∧
        (g0.overlay_step x y sub acc p).1.cells.length = acc.1.cells.length := by
      unfold overlay_step
      split_ifs <;> simp [Grid.set_cell]
    exact ⟨h1.trans hstep.1, h2.trans hstep.2.1, h3.trans hstep.2.2⟩

/-- The `overlay` fold writes only non-empty cells, so a non-empty storage
slot stays non-empty. -/
theorem overlay_foldl_mono (g0 : Grid C) (x y : Int) (sub : Grid C) :
    ∀ (l : List (Nat × Nat)) (acc : Grid C × OverlayResult) (idx : Nat),
      is_empty (acc.1.cells.getD idx default) = false →
      is_empty ((l.foldl (g0.overlay_step x y sub) acc).1.cells.getD idx default) = false := by
  intro l
  induction l with
  | nil => intro acc idx h; exact h
  | cons p t ih =>
    intro acc idx h
    rw [List.foldl_cons]
    apply ih
    unfold overlay_step
    split_ifs with h1 h2 h3
    · exact h
    · exact h
    · exact h
    · show is_empty ((acc.1.set_cell _ _ (sub.cell p.1 p.2)).cells.getD idx default) = false
      unfold set_cell
      simp only
      rw [listGetD_set]
      split_ifs with hc
      · simpa using h1
      · exact h

/-- After a collision-free `overlay`, the written region is non-empty: the
grid cell under any non-empty, in-bounds sub cell is non-empty. -/
theorem overlay_keeps_nonempty_at (g : Grid C) (x y : Int) (sub : Grid C)
    (hlen : g.cells.length = g.num_cols * g.num_rows)
    (sx sy : Nat) (hsx : sx < sub.num_cols) (hsy : sy < sub.num_rows)
    (hcell : is_empty (sub.cell sx sy) = false)
    (hin : ¬(x + sx < 0 ∨ (g.num_cols : Int) ≤ x + sx ∨
      y + sy < 0 ∨ (g.num_rows : Int) ≤ y + sy)) :
    is_empty ((g.overlay x y sub).1.cell (x + sx).toNat (y + sy).toNat) = false := by
  have hmem : ((sx, sy) : Nat × Nat) ∈ subPairs sub := (mem_subPairs _ _).2 ⟨hsx, hsy⟩
  obtain ⟨l1, l2, hsplit⟩ := List.append_of_mem hmem
  set tx := (x + (sx : Int)).toNat with htx
  set ty := (y + (sy : Int)).toNat with hty
  have htxlt : tx < g.num_cols := by omega
  have htylt : ty < g.num_rows := by omega
  set step := g.overlay_step x y sub with hstep
  set acc1 := l1.foldl step (g, OverlayResult.empty) with hacc1
  have hdims1 := g.overlay_foldl_preserve x y sub l1 (g, OverlayResult.empty)
  have hcols1 : acc1.1.num_cols = g.num_cols := hdims1.2.1
  have hlen1 : acc1.1.cells.length = g.cells.length := hdims1.2.2
  have hidxlt : tx + ty * g.num_cols < g.cells.length := by
    rw [hlen]
    calc tx + ty * g.num_cols < g.num_cols + ty * g.num_cols := by omega
    _ = (ty + 1) * g.num_cols := by ring
    _ ≤ g.num_rows * g.num_cols := Nat.mul_le_mul_right _ (by omega)
    _ = g.num_cols * g.num_rows := Nat.mul_comm _ _
  -- after the step at (sx, sy) the slot is non-empty
  have hafter : is_empty ((step acc1 (sx, sy)).1.cells.getD (tx + ty * g.num_cols) default)
      = false := by
    rw [hstep]
    unfold overlay_step
    simp only [hcell, Bool.false_eq_true, if_false, hin, if_neg, not_false_iff]
    by_cases hocc : is_empty (acc1.1.cell tx ty) = false
    · simp only [hocc, Bool.not_false, if_pos]
      have : acc1.1.cell tx ty = acc1.1.cells.getD (tx + ty * g.num_cols) default := by
        unfold cell cell_index
        rw [hcols1]
      rw [this] at hocc
      exact hocc
    · have hocc2 : is_empty (acc1.1.cell tx ty) = true := by
        cases h : is_empty (acc1.1.cell tx ty)
        · exact absurd h hocc
        · rfl
      simp only [hocc2, Bool.not_true, Bool.false_eq_true, if_false]
      unfold set_cell cell_index
      simp only
      rw [hcols1, listGetD_set]
      rw [if_pos ⟨rfl, by rw [hlen1]; exact hidxlt⟩]
      exact hcell
  -- the remaining iterations keep it non-empty
  have hfinal : is_empty ((l2.foldl step (step acc1 (sx, sy))).1.cells.getD
      (tx + ty * g.num_cols) default) = false :=
    g.overlay_foldl_mono x y sub l2 _ _ hafter
  have hov : (g.overlay x y sub).1 = (l2.foldl step (step acc1 (sx, sy))).1 := by
    unfold overlay
    rw [hsplit, List.foldl_append, List.foldl_cons]
  rw [hov]
  have hdims2 := g.overlay_foldl_preserve x y sub l2 (step acc1 (sx, sy))
  have hdimstep : (step acc1 (sx, sy)).1.num_cols = g.num_cols := by
    rw [hstep]
    unfold overlay_step
    split_ifs <;> simp [Grid.set_cell, hcols1]
  unfold cell cell_index
  rw [hdims2.2.1, hdimstep]
  exact hfinal

end Grid

/-- The 1x1 all-empty grid used to refute C9 as stated. -/
def cx9Grid : Grid Nat := Grid.new 1 1 []

/-- The 1x1 all-empty sub grid used to refute C9 as stated. -/
def cx9Sub : Grid Nat := Grid.new 1 1 []

/-- C9 counterexample: with a sub grid containing no non-empty cell,
`check_overlay` is empty before AND after `overlay` (which writes
nothing), so the round-trip does not produce OVERLAP. -/
theorem c9_counterexample_empty_sub :
    (cx9Grid.check_overlay 0 0 cx9Sub).is_empty = true ∧
    ((cx9Grid.overlay 0 0 cx9Sub).1.check_overlay 0 0 cx9Sub).overlap = false := by
  exact ⟨by decide, by decide⟩

/-- C9 (amended): when the sub grid contains at least one non-empty cell
and `check_overlay(x, y, sub)` is empty, performing `overlay(x, y, sub)`
and checking the same region again yields OVERLAP.  (The grid's cell
storage has its constructed size, as `Grid::new` guarantees.) -/
theorem c9_overlay_roundtrip {C : Type} [Inhabited C] [CellLike C]
    (g : Grid C) (x y : Int) (sub : Grid C)
    (hlen : g.cells.length = g.num_cols * g.num_rows)
    (hchk : g.check_overlay x y sub = OverlayResult.empty)
    (hsub : ∃ sx sy, sx < sub.num_cols ∧ sy < sub.num_rows ∧
      is_empty (sub.cell sx sy) = false) :
    ((g.overlay x y sub).1.check_overlay x y sub).overlap = true := by
  obtain ⟨sx, sy, hsx, hsy, hcell⟩ := hsub
  have hmem : ((sx, sy) : Nat × Nat) ∈ Grid.subPairs sub :=
    (Grid.mem_subPairs _ _).2 ⟨hsx, hsy⟩
  -- the precondition rules out overflow at (sx, sy)
  have hchk2 := Grid.check_overlay_eq g x y sub
  rw [hchk] at hchk2
  have hovfall : (Grid.subPairs sub).any (g.ovfAt x y sub) = false :=
    congrArg OverlayResult.overflow hchk2.symm
  have hovfp : g.ovfAt x y sub (sx, sy) = false := by
    rw [List.any_eq_false] at hovfall
    have := hovfall _ hmem
    cases h : g.ovfAt x y sub (sx, sy)
    · rfl
    · exact absurd h this
  have hin : ¬(x + sx < 0 ∨ (g.num_cols : Int) ≤ x + sx ∨
      y + sy < 0 ∨ (g.num_rows : Int) ≤ y + sy) := by
    unfold Grid.ovfAt at hovfp
    simp only [hcell, Bool.not_false, Bool.true_and, decide_eq_false_iff_not] at hovfp
    exact hovfp
  have hkeep := g.overlay_keeps_nonempty_at x y sub hlen sx sy hsx hsy hcell hin
  -- dimensions of the overlaid grid agree with the original
  have hdims := g.overlay_foldl_preserve x y sub (Grid.subPairs sub)
    (g, OverlayResult.empty)
  have hrows : (g.overlay x y sub).1.num_rows = g.num_rows := hdims.1
  have hcols : (g.overlay x y sub).1.num_cols = g.num_cols := hdims.2.1
  rw [Grid.check_overlay_eq]
  show (Grid.subPairs sub).any ((g.overlay x y sub).1.ovlAt x y sub) = true
  refine List.any_eq_true.2 ⟨(sx, sy), hmem, ?_⟩
  unfold Grid.ovlAt
  simp only [hcell, Bool.not_false, Bool.true_and, hrows, hcols]
  rw [decide_eq_false hin]
  simp only [Bool.not_false, Bool.true_and, hkeep, Bool.not_false]

/-- Fixture for the C9 witness: a 2x2 empty grid. -/
def c9wGrid : Grid Nat := Grid.new 2 2 []

/-- Fixture for the C9 witness: a 1x1 sub grid holding one block. -/
def c9wSub : Grid Nat := Grid.new 1 1 [5]

/-- C9 witness: the amended round-trip at a concrete input. -/
theorem c9_overlay_roundtrip_witness :
    (c9wGrid.cells.length = c9wGrid.num_cols * c9wGrid.num_rows) ∧
    (c9wGrid.check_overlay 0 1 c9wSub = OverlayResult.empty) ∧
    ((c9wGrid.overlay 0 1 c9wSub).1.check_overlay 0 1 c9wSub).overlap = true :=
  ⟨by decide, by decide,
    c9_overlay_roundtrip c9wGrid 0 1 c9wSub (by decide) (by decide)
      ⟨0, 0, by decide, by decide, by decide⟩⟩

/-- C8: the claim states `pluck_filled_rows` leaves exactly
`original_non_empty - n * num_cols` non-empty cells, compacted downward.
The sweep loop breaks as soon as `y == num_rows - n` (`common.rs` citation
is `grid/src/lib.rs` lines 217-219): on `g8` (rows, bottom first,
`[G,G] / [G,G] / [E,G] / [G,E]`) it returns n = 2 after moving only row 2,
leaving 3 non-empty cells instead of `6 - 2*2 = 2` — among them the
still-complete row 1, and the content of row 3 is lost. -/
theorem c8_pluck_early_break_loses_cells :
    (g8.pluck_filled_rows (some Cell.Empty)).2 = 2 ∧
    nonEmptyCount g8 = 6 ∧
    nonEmptyCount (g8.pluck_filled_rows (some Cell.Empty)).1 = 3 ∧
    (g8.pluck_filled_rows (some Cell.Empty)).1.is_row_filled 1 = true := by
  exact ⟨by decide, by decide, by decide, by decide⟩

/-- C10: for any direction with `(dx, dy) != (0, 0)`, the
`check_overlay_toward` loop terminates (its exit condition is eventually
reached) whenever the sub grid contains a non-empty cell; and the
precondition is necessary, since an all-empty sub grid makes every check
result empty so the loop condition can never be met. -/
theorem c10_check_overlay_toward_terminates {C : Type} [Inhabited C] [CellLike C]
    (g : Grid C) (x y : Int) (sub : Grid C) (dx dy : Int)
    (hd : ¬(dx = 0 ∧ dy = 0)) :
    ((∃ sx sy, sx < sub.num_cols ∧ sy < sub.num_rows ∧
        is_empty (sub.cell sx sy) = false) →
      ∃ n : Nat, (g.check_overlay (x + n * dx) (y + n * dy) sub).is_empty = false) ∧
    ((∀ sx sy, sx < sub.num_cols → sy < sub.num_rows →
        is_empty (sub.cell sx sy) = true) →
      ∀ n : Nat, g.check_overlay (x + n * dx) (y + n * dy) sub = OverlayResult.empty) := by
  constructor
  · intro hne
    exact Grid.exit_exists g x y sub dx dy (by tauto) hne
  · intro hall n
    exact Grid.check_overlay_all_empty g _ _ sub hall

/-- C10 witness: the gravity direction `(0, -1)` on the repo-test grids. -/
theorem c10_check_overlay_toward_terminates_witness :
    ¬((0 : Int) = 0 ∧ (-1 : Int) = 0) ∧
    (∃ n : Nat, (testGrid.check_overlay (1 + n * 0) (1 + n * (-1)) testSub).is_empty
      = false) :=
  ⟨by decide,
    (c10_check_overlay_toward_terminates testGrid 1 1 testSub 0 (-1) (by decide)).1
      ⟨0, 0, by decide, by decide, by decide⟩⟩

/-! ### The C7 debouncer scenario -/

namespace InputCounter

/-- One frame of the C7 scenario: one `update(true)` (raw bit held)
followed by one `handle()`; the counter state carries over. -/
def stepC (c : InputCounter) : InputCounter := ((c.update true).handle).2

/-- Counter state after `k` frames of the C7 scenario, starting from
`new(repeat = 2, first_delay = 3)`. -/
def frameState : Nat → InputCounter
  | 0 => InputCounter.new 2 3
  | k + 1 => stepC (frameState k)

/-- Did the `handle()` of frame `f` (frames numbered from 1) return true? -/
def handledAt : Nat → Bool
  | 0 => false
  | k + 1 => (((frameState k).update true).handle).1

end InputCounter

/-- The embedding reproduces the repo's own `repeatable2` test
(`input_counter` lines 167-183): with `new(2, 3)` the handles of frames
1..6 are T F F T F T. -/
theorem input_counter_matches_repo_test :
    InputCounter.handledAt 1 = true ∧ InputCounter.handledAt 2 = false ∧
    InputCounter.handledAt 3 = false ∧ InputCounter.handledAt 4 = true ∧
    InputCounter.handledAt 5 = false ∧ InputCounter.handledAt 6 = true := by
  exact ⟨by decide, by decide, by decide, by decide, by decide, by decide⟩

/-- C7: with `repeat = 2` and `first_delay = 3`, the raw bit held from
frame 1 on, and one `handle()` per frame, `handle()` returns true exactly
on frames 1, 4, 6, 8, 10, ... — once immediately, then after the first
delay, then every 2 frames. -/
theorem c7_debouncer_handles_at_1_4_6_8 :
    ∀ f : Nat, InputCounter.handledAt f = true ↔ (f = 1 ∨ (4 ≤ f ∧ f % 2 = 0)) := by
  have hper : ∀ k, InputCounter.frameState (2 * k + 4) = InputCounter.frameState 4 := by
    intro k
    induction k with
    | zero => rfl
    | succ m ih =>
      have he : 2 * (m + 1) + 4 = 2 * m + 4 + 1 + 1 := by ring
      rw [he]
      show InputCounter.stepC (InputCounter.stepC (InputCounter.frameState (2 * m + 4)))
        = InputCounter.frameState 4
      rw [ih]
      decide
  have hodd : ∀ k, InputCounter.handledAt (2 * k + 5) = false := by
    intro k
    have he : 2 * k + 5 = (2 * k + 4) + 1 := by ring
    rw [he]
    show (((InputCounter.frameState (2 * k + 4)).update true).handle).1 = false
    rw [hper k]
    decide
  have heven : ∀ k, InputCounter.handledAt (2 * k + 6) = true := by
    intro k
    have he : 2 * k + 6 = ((2 * k + 4) + 1) + 1 := by ring
    rw [he]
    show (((InputCounter.frameState ((2 * k + 4) + 1)).update true).handle).1 = true
    show (((InputCounter.stepC (InputCounter.frameState (2 * k + 4))).update true).handle).1
      = true
    rw [hper k]
    decide
  intro f
  by_cases h5 : f ≤ 5
  · interval_cases f <;> decide
  · rcases Nat.mod_two_eq_zero_or_one f with hp | hp
    · obtain ⟨k, rfl⟩ : ∃ k, f = 2 * k + 6 := ⟨(f - 6) / 2, by omega⟩
      rw [heven k]
      constructor
      · intro _
        exact Or.inr ⟨by omega, by omega⟩
      · intro _
        rfl
    · obtain ⟨k, rfl⟩ : ∃ k, f = 2 * k + 5 := ⟨(f - 5) / 2, by omega⟩
      rw [hodd k]
      simp only [Bool.false_eq_true, false_iff]
      omega

/-! ### C5: the rotation attempt is a first-fit scan of the kick table -/

theorem rotateLoop_eq_none_iff (pf : Playfield) (fp : FallingPiece) :
    ∀ l, rotateLoop pf fp l = none ↔
      ∀ o ∈ l, (mkCand fp o).can_put_onto pf = false := by
  intro l
  induction l with
  | nil => simp [rotateLoop]
  | cons o t ih =>
    by_cases h : (mkCand fp o).can_put_onto pf = true
    · simp [rotateLoop, h, List.forall_mem_cons]
    · have hf : (mkCand fp o).can_put_onto pf = false := by simpa using h
      simp [rotateLoop, hf, List.forall_mem_cons, ih]

theorem rotateLoop_eq_some (pf : Playfield) (fp : FallingPiece) :
    ∀ l fp2 ts, rotateLoop pf fp l = some (fp2, ts) →
      fp2.piece = fp.piece ∧ fp2.rotation = fp.rotation ∧
      ts = accepted_tspin fp2 pf ∧
      ∃ k o, l.get? k = some o ∧ fp2 = mkCand fp o ∧
        fp2.can_put_onto pf = true ∧
        ∀ o2 ∈ l.take k, (mkCand fp o2).can_put_onto pf = false := by
  intro l
  induction l with
  | nil =>
    intro fp2 ts h
    exact absurd h (by simp [rotateLoop])
  | cons o t ih =>
    intro fp2 ts h
    unfold rotateLoop at h
    by_cases hc : (mkCand fp o).can_put_onto pf = true
    · rw [if_pos hc] at h
      have h2 := Option.some.inj h
      have hfp : fp2 = mkCand fp o := (congrArg Prod.fst h2).symm
      have hts : ts = accepted_tspin (mkCand fp o) pf := (congrArg Prod.snd h2).symm
      subst hfp
      refine ⟨rfl, rfl, hts, 0, o, rfl, rfl, hc, ?_⟩
      intro o2 ho2
      exact absurd ho2 (by simp)
    · rw [if_neg hc] at h
      obtain ⟨hp, hr, hts, k, o2, hget, hfp2, hput, hprev⟩ := ih fp2 ts h
      refine ⟨hp, hr, hts, k + 1, o2, hget, hfp2, hput, ?_⟩
      intro o3 ho3
      rw [List.take_succ_cons] at ho3
      rcases List.mem_cons.1 ho3 with h3 | h3
      · subst h3
        simpa using hc
      · exact hprev o3 h3

/-- Spec-side statement of C5, at one `(cw, piece, playfield)` input with
accepted new rotation `newRot`: the kick loop rejects iff every candidate
`(x + off_from[k].x - off_to[k].x, y + off_from[k].y - off_to[k].y)` fails
`can_put_onto`, and an accepted result is the first passing candidate,
with the piece kind preserved and the rotation set to `newRot`. -/
def RotateFirstFit (cw : Bool) (fp : FallingPiece) (pf : Playfield)
    (newRot : Rotation) : Prop :=
  (WorldRuleLogic.rotate cw fp pf = some none ↔
    ∀ o ∈ (offsetData fp.piece fp.rotation).zip (offsetData fp.piece newRot),
      (mkCand { fp with rotation := newRot } o).can_put_onto pf = false) ∧
  (∀ fp2 ts, WorldRuleLogic.rotate cw fp pf = some (some (fp2, ts)) →
    fp2.piece = fp.piece ∧ fp2.rotation = newRot ∧
    ∃ k o,
      ((offsetData fp.piece fp.rotation).zip (offsetData fp.piece newRot)).get? k
        = some o ∧
      fp2 = mkCand { fp with rotation := newRot } o ∧
      fp2.can_put_onto pf = true ∧
      ∀ o2 ∈ ((offsetData fp.piece fp.rotation).zip
        (offsetData fp.piece newRot)).take k,
        (mkCand { fp with rotation := newRot } o2).can_put_onto pf = false)

/-- C5: whenever the rotation-state step succeeds (no panic), the kick
loop of `WorldRuleLogic::rotate` tries the offset-table candidates in
order, accepts the first that passes `can_put_onto` (piece kind unchanged,
rotation set to the new state, only x and y adjusted), and rejects with
`None` when every candidate fails. -/
theorem c5_rotate_is_first_fit (cw : Bool) (fp : FallingPiece) (pf : Playfield)
    (newRot : Rotation)
    (hrot : (if cw then fp.rotation.cw else fp.rotation.ccw) = some newRot) :
    RotateFirstFit cw fp pf newRot := by
  have hrw : WorldRuleLogic.rotate cw fp pf =
      some (rotateLoop pf { fp with rotation := newRot }
        ((offsetData fp.piece fp.rotation).zip (offsetData fp.piece newRot))) := by
    unfold WorldRuleLogic.rotate
    rw [hrot]
  constructor
  · rw [hrw]
    constructor
    · intro h
      exact (rotateLoop_eq_none_iff pf _ _).1 (Option.some.inj h)
    · intro h
      exact congrArg some ((rotateLoop_eq_none_iff pf _ _).2 h)
  · intro fp2 ts h
    rw [hrw] at h
    obtain ⟨hp, hr, _, k, o, hget, hfp2, hput, hprev⟩ :=
      rotateLoop_eq_some pf _ _ fp2 ts (Option.some.inj h)
    exact ⟨hp, hr, k, o, hget, hfp2, hput, hprev⟩

/-- C5 witness: a clockwise rotation of the T piece on the open field. -/
theorem c5_rotate_is_first_fit_witness :
    (if true then Rotation.Cw0.cw else Rotation.Cw0.ccw) = some Rotation.Cw90 ∧
    RotateFirstFit true fpT_mid pfE5 Rotation.Cw90 :=
  ⟨by decide, c5_rotate_is_first_fit true fpT_mid pfE5 Rotation.Cw90 (by decide)⟩

/-! ### C6: T-Spin classification -/

/-- Spec-side corner count: how many of the four diagonal corners of the
piece's 3x3 box are filled (out of bounds or non-empty). -/
def tspin_corner_count (fp : FallingPiece) (pf : Playfield) : Nat :=
  ([((-1 : Int), (-1 : Int)), (1, -1), (-1, 1), (1, 1)]).countP
    (fun d => corner_filled pf (fp.x + 1 + d.1) (fp.y + 1 + d.2))

/-- Spec-side: offset of the cell directly behind the center, opposite the
pointing direction of the rotation (Cw0 points up, so behind is below,
etc.). -/
def behind_offset : Rotation → Int × Int
  | .Cw0 => (0, -1)
  | .Cw90 => (-1, 0)
  | .Cw180 => (0, 1)
  | .Cw270 => (1, 0)

/-- Spec-side statement of the T-Spin classification of C6. -/
def tspin_spec (fp : FallingPiece) (pf : Playfield) : TSpin :=
  if fp.piece ≠ Piece.T then TSpin.None
  else if tspin_corner_count fp pf < 3 then TSpin.None
  else if corner_filled pf (fp.x + 1 + (behind_offset fp.rotation).1)
      (fp.y + 1 + (behind_offset fp.rotation).2) then
    if tspin_corner_count fp pf = 4 then TSpin.Normal else TSpin.Mini
  else TSpin.Normal

/-- C6: the tag attached to an accepted rotation follows the claimed
classification — `None` for non-T pieces; for T, fewer than 3 filled
corners give `None`, and with 3 or more the result is `Normal` unless the
cell behind the center is filled and exactly 3 corners are filled, which
gives `Mini`. -/
theorem c6_tspin_classification (fp : FallingPiece) (pf : Playfield) :
    accepted_tspin fp pf = tspin_spec fp pf := by
  obtain ⟨p, x, y, r⟩ := fp
  cases p
  case T =>
    unfold accepted_tspin tspin_spec tspin_check tspin_corner_count behind_offset
    cases r <;>
      simp only [List.foldl, List.countP_cons, List.countP_nil, reduceIte] <;>
      (cases c1 : corner_filled pf (x + 1 + -1) (y + 1 + -1) <;>
        cases c2 : corner_filled pf (x + 1 + 1) (y + 1 + -1) <;>
        cases c3 : corner_filled pf (x + 1 + -1) (y + 1 + 1) <;>
        cases c4 : corner_filled pf (x + 1 + 1) (y + 1 + 1)) <;>
      simp_all
  all_goals
    unfold accepted_tspin tspin_spec
    simp

end Mino
